import Mathlib

/-!
# Verification of the santabot Secret Santa pairing engine

A shallow embedding of the pairing-related code of the `santabot`
repository (`services/pairing.py`, `services/notifications.py`,
`handlers/admin.py`, `database/crud.py`, `database/models.py`)
together with proofs and refutations of the specification's claims.

Conventions:
* machine integers are modelled as `Nat` (ids) and `Int` (timestamps,
  in minutes, so the notification windows are integral);
* the SQLAlchemy session is modelled by explicit state passing over a
  `DB` record holding the *committed* rows; `db.commit()` inside a CRUD
  helper is modelled by that helper returning the updated `DB`;
* `random.shuffle` is modelled by passing the shuffled list as an
  explicit parameter, constrained in theorems to be a permutation of
  the queried ids;
* a fault injection point `failAt : Option Nat` names the index of the
  `create_santa_pair` call whose commit raises (`none` = no fault).
-/

namespace SantaBot

/-- Embeds `services/pairing.py` lines 33–43: given the shuffled
participant-id list, copy it, and if its length is odd perform the
simultaneous Python assignment
`receivers[len//2], receivers[0] = receivers[0], receivers[len//2]`
(position `len//2` receives the old element 0, position 0 receives the
old element `len//2`), then reverse the list in place. -/
def computeReceivers (ids : List Nat) : List Nat :=
  (if ids.length % 2 ≠ 0 then
      (ids.set (ids.length / 2) (ids.getD 0 0)).set 0 (ids.getD (ids.length / 2) 0)
    else ids).reverse

/-- Embeds `services/pairing.py` line 46: the element-wise zip of the
shuffled giver list with the receiver list. -/
def generatePairList (shuffled : List Nat) : List (Nat × Nat) :=
  shuffled.zip (computeReceivers shuffled)

lemma length_computeReceivers (l : List Nat) :
    (computeReceivers l).length = l.length := by
  unfold computeReceivers
  split <;> simp

lemma computeReceivers_even (l : List Nat) (h2 : l.length % 2 = 0) :
    computeReceivers l = l.reverse := by
  unfold computeReceivers
  simp [h2]

lemma getD_computeReceivers_odd (l : List Nat) (h2 : l.length % 2 = 1)
    (i : Nat) (hi : i < l.length) :
    (computeReceivers l).getD i 0 =
      if i = l.length - 1 then l.getD (l.length / 2) 0
      else if i = l.length / 2 then l.getD 0 0
      else l.getD (l.length - 1 - i) 0 := by
  have hodd : l.length % 2 ≠ 0 := by omega
  unfold computeReceivers
  rw [if_pos hodd]
  have hlen : ((l.set (l.length / 2) (l.getD 0 0)).set 0
      (l.getD (l.length / 2) 0)).length = l.length := by simp
  have hiR : i < ((l.set (l.length / 2) (l.getD 0 0)).set 0
      (l.getD (l.length / 2) 0)).reverse.length := by simpa [hlen] using hi
  rw [List.getD_eq_getElem _ _ hiR, List.getElem_reverse]
  have hsub : l.length - 1 - i < l.length := by omega
  have hsub' : l.length - 1 - i < ((l.set (l.length / 2) (l.getD 0 0)).set 0
      (l.getD (l.length / 2) 0)).length := by simpa [hlen] using hsub
  rw [List.getElem_set, List.getElem_set]
  simp only [List.length_set]
  have hm : l.length / 2 < l.length := by omega
  rw [List.getD_eq_getElem l 0 hsub]
  split_ifs <;> first | rfl | omega

lemma cons_set_perm (t : List Nat) (k : Nat) (a : Nat) (hk : k < t.length) :
    (t.getD k 0 :: t.set k a).Perm (a :: t) := by
  induction t generalizing k with
  | nil => simp at hk
  | cons b s ih =>
    cases k with
    | zero =>
      simp only [List.getD_cons_zero, List.set_cons_zero]
      exact List.Perm.swap a b s
    | succ k =>
      have hk' : k < s.length := by simpa using hk
      simp only [List.getD_cons_succ, List.set_cons_succ]
      have h1 : (s.getD k 0 :: b :: s.set k a).Perm (b :: s.getD k 0 :: s.set k a) :=
        List.Perm.swap b (s.getD k 0) (s.set k a)
      have h2 : (b :: s.getD k 0 :: s.set k a).Perm (b :: a :: s) := (ih k hk').cons b
      have h3 : (b :: a :: s).Perm (a :: b :: s) := List.Perm.swap a b s
      exact (h1.trans h2).trans h3

lemma set_set_zero_perm (l : List Nat) (m : Nat) (hm : m < l.length) :
    ((l.set m (l.getD 0 0)).set 0 (l.getD m 0)).Perm l := by
  cases l with
  | nil => simp at hm
  | cons a t =>
    cases m with
    | zero => simp
    | succ k =>
      have hk : k < t.length := by simpa using hm
      simp only [List.getD_cons_zero, List.set_cons_succ, List.getD_cons_succ,
        List.set_cons_zero]
      exact cons_set_perm t k a hk

lemma computeReceivers_perm (l : List Nat) : (computeReceivers l).Perm l := by
  unfold computeReceivers
  by_cases h2 : l.length % 2 ≠ 0
  · rw [if_pos h2]
    refine (List.reverse_perm _).trans ?_
    exact set_set_zero_perm l (l.length / 2) (by omega)
  · rw [if_neg h2]
    exact List.reverse_perm l

lemma getD_set (l : List Nat) (j v i : Nat) (hi : i < l.length) :
    (l.set j v).getD i 0 = if j = i then v else l.getD i 0 := by
  rw [List.getD_eq_getElem _ _ (by simpa using hi), List.getElem_set,
    List.getD_eq_getElem _ _ hi]

lemma getD_reverse (l : List Nat) (i : Nat) (hi : i < l.length) :
    l.reverse.getD i 0 = l.getD (l.length - 1 - i) 0 := by
  rw [List.getD_eq_getElem _ _ (by simpa using hi), List.getElem_reverse,
    List.getD_eq_getElem _ _ (by omega)]

lemma getD_computeReceivers_even (l : List Nat) (h2 : l.length % 2 = 0)
    (i : Nat) (hi : i < l.length) :
    (computeReceivers l).getD i 0 = l.getD (l.length - 1 - i) 0 := by
  rw [computeReceivers_even l h2, getD_reverse l i hi]

lemma nodup_getD_inj (p : List Nat) (hpn : p.Nodup) (i j : Nat)
    (hi : i < p.length) (hj : j < p.length)
    (h : p.getD i 0 = p.getD j 0) : i = j := by
  rw [List.getD_eq_getElem _ _ hi, List.getD_eq_getElem _ _ hj] at h
  exact (List.Nodup.getElem_inj_iff hpn).mp h

/-- C2 (no self-pairing): for every list `l` of at least three distinct
participant ids and every outcome `p` of the random shuffle (any permutation
of `l`), every `(giver, receiver)` pair produced by zipping `p` with the
computed receiver list satisfies `giver ≠ receiver`. -/
theorem C2_no_self_pairing (l p : List Nat) (hnd : l.Nodup) (hlen : 3 ≤ l.length)
    (hp : p.Perm l) : ∀ g r, (g, r) ∈ generatePairList p → g ≠ r := by
  intro g r hmem heq
  have hpn : p.Nodup := hp.symm.nodup hnd
  have hpl : p.length = l.length := hp.length_eq
  unfold generatePairList at hmem
  rw [List.mem_iff_getElem] at hmem
  obtain ⟨i, hi, hgr⟩ := hmem
  have hip : i < p.length := by
    rw [List.length_zip, length_computeReceivers] at hi
    omega
  have hicr : i < (computeReceivers p).length := by
    rw [length_computeReceivers]
    exact hip
  rw [List.getElem_zip, Prod.mk.injEq] at hgr
  have hkey : p.getD i 0 = (computeReceivers p).getD i 0 := by
    rw [List.getD_eq_getElem _ _ hip, List.getD_eq_getElem _ _ hicr,
      hgr.1, hgr.2, heq]
  rcases Nat.mod_two_eq_zero_or_one p.length with h2 | h2
  · rw [getD_computeReceivers_even p h2 i hip] at hkey
    have := nodup_getD_inj p hpn i (p.length - 1 - i) hip (by omega) hkey
    omega
  · rw [getD_computeReceivers_odd p h2 i hip] at hkey
    split_ifs at hkey with hA hB
    · have := nodup_getD_inj p hpn i (p.length / 2) hip (by omega) hkey
      omega
    · have := nodup_getD_inj p hpn i 0 hip (by omega) hkey
      omega
    · have := nodup_getD_inj p hpn i (p.length - 1 - i) hip (by omega) hkey
      omega

theorem C2_no_self_pairing_witness :
    ((1, 3) ∈ generatePairList [1, 2, 3]) ∧ (1 : Nat) ≠ 3 :=
  ⟨by decide,
    C2_no_self_pairing [1, 2, 3] [1, 2, 3] (by decide) (by decide)
      (List.Perm.refl _) 1 3 (by decide)⟩

/-- C3 (coverage): for every list `l` of at least three distinct
participant ids and every shuffle outcome `p`, the pairing computation
returns exactly `l.length` pairs, the giver column is a permutation of the
input ids, the receiver column is a permutation of the input ids, and
each input id occurs exactly once as giver and exactly once as receiver. -/
theorem C3_coverage (l p : List Nat) (hnd : l.Nodup) (hlen : 3 ≤ l.length)
    (hp : p.Perm l) :
    (generatePairList p).length = l.length ∧
    ((generatePairList p).map Prod.fst).Perm l ∧
    ((generatePairList p).map Prod.snd).Perm l ∧
    ∀ x ∈ l, ((generatePairList p).map Prod.fst).count x = 1 ∧
      ((generatePairList p).map Prod.snd).count x = 1 := by
  have hpl : p.length = l.length := hp.length_eq
  have hcrl : (computeReceivers p).length = p.length := length_computeReceivers p
  have hfst : (generatePairList p).map Prod.fst = p :=
    List.map_fst_zip p _ (by omega)
  have hsnd : (generatePairList p).map Prod.snd = computeReceivers p :=
    List.map_snd_zip p _ (by omega)
  have hsndp : ((generatePairList p).map Prod.snd).Perm l := by
    rw [hsnd]
    exact (computeReceivers_perm p).trans hp
  refine ⟨?_, ?_, hsndp, ?_⟩
  · unfold generatePairList
    rw [List.length_zip]
    omega
  · rw [hfst]
    exact hp
  · intro x hx
    have h1 : l.count x = 1 := List.count_eq_one_of_mem hnd hx
    constructor
    · rw [hfst, hp.count_eq, h1]
    · rw [hsndp.count_eq, h1]

theorem C3_coverage_witness :
    (generatePairList [1, 2, 3]).length = ([1, 2, 3] : List Nat).length :=
  (C3_coverage [1, 2, 3] [1, 2, 3] (by decide) (by decide) (List.Perm.refl _)).1

/-- Modelled from the spec's words (§4.1 steps 2–3): "Let R be P reversed.
If |P| is odd, swap R[0] and R[len/2] (integer division)."  Used only to
compare the spec's stated receiver construction against the code's
`computeReceivers`. -/
def specReceivers (ids : List Nat) : List Nat :=
  let r := ids.reverse
  if ids.length % 2 ≠ 0 then
    (r.set 0 (r.getD (ids.length / 2) 0)).set (ids.length / 2) (r.getD 0 0)
  else r

/-- The amended step, faithful to the code: the swap of positions `0` and
`len/2` is applied to the shuffled list *before* reversing; equivalently,
after reversing it is positions `len-1` and `len/2` of R that are swapped,
not positions `0` and `len/2`. -/
def specReceiversAmended (ids : List Nat) : List Nat :=
  let r := ids.reverse
  if ids.length % 2 ≠ 0 then
    (r.set (ids.length - 1) (r.getD (ids.length / 2) 0)).set (ids.length / 2)
      (r.getD (ids.length - 1) 0)
  else r

/-- C7 counterexample: on the shuffle outcome `[1, 2, 3]` the code's
receiver construction (swap, then reverse) produces the mapping
`1↦3, 2↦1, 3↦2`, while the spec's stated construction (reverse, then swap
R[0] with R[len/2]) produces `1↦2, 2↦3, 3↦1`; the two differ. -/
theorem C7_counterexample :
    generatePairList [1, 2, 3] = [(1, 3), (2, 1), (3, 2)] ∧
    ([1, 2, 3] : List Nat).zip (specReceivers [1, 2, 3]) =
      [(1, 2), (2, 3), (3, 1)] ∧
    computeReceivers [1, 2, 3] ≠ specReceivers [1, 2, 3] := by
  refine ⟨by decide, by decide, by decide⟩

lemma getD_specReceiversAmended_odd (l : List Nat) (h2 : l.length % 2 = 1)
    (i : Nat) (hi : i < l.length) :
    (specReceiversAmended l).getD i 0 =
      if i = l.length / 2 then l.getD 0 0
      else if i = l.length - 1 then l.getD (l.length / 2) 0
      else l.getD (l.length - 1 - i) 0 := by
  have hodd : l.length % 2 ≠ 0 := by omega
  unfold specReceiversAmended
  rw [if_pos hodd]
  rw [getD_set _ _ _ i (by simp; omega), getD_set _ _ _ i (by simp; omega)]
  rw [getD_reverse l i hi]
  rw [getD_reverse l (l.length / 2) (by omega), getD_reverse l (l.length - 1) (by omega)]
  have e1 : l.length - 1 - (l.length / 2) = l.length / 2 := by omega
  have e2 : l.length - 1 - (l.length - 1) = 0 := by omega
  rw [e1, e2]
  split_ifs <;> first | rfl | omega | (congr 1; omega)

/-- C7 amended: the receiver sequence equals the amended reference
definition — P reversed with positions `len-1` and `len/2` of R swapped when
`|P|` is odd (equivalently, the swap happens before the reversal) — for every
input list. -/
theorem C7_receiver_construction (p : List Nat) :
    computeReceivers p = specReceiversAmended p := by
  rcases Nat.mod_two_eq_zero_or_one p.length with h2 | h2
  · rw [computeReceivers_even p h2]
    unfold specReceiversAmended
    rw [if_neg (by omega)]
  · have hlen : (specReceiversAmended p).length = p.length := by
      unfold specReceiversAmended
      split <;> simp
    apply List.ext_getElem (by rw [length_computeReceivers, hlen])
    intro i h1 h2'
    have hip : i < p.length := by
      rw [length_computeReceivers] at h1
      exact h1
    rw [← List.getD_eq_getElem (computeReceivers p) 0 h1,
      ← List.getD_eq_getElem (specReceiversAmended p) 0 h2',
      getD_computeReceivers_odd p h2 i hip,
      getD_specReceiversAmended_odd p h2 i hip]
    split_ifs <;> first | rfl | omega | (congr 1; omega)

/-! ## The database model

Rows of the three tables the pairing engine touches
(`database/models.py`), and the committed database state. -/

structure Participant where
  id : Nat
  eventId : Nat
  telegramId : Nat
  username : Option String
  firstName : String
  lastName : Option String
  wishes : Option String
  address : Option String
  deliveryMethods : Option String
  deriving Repr, DecidableEq

structure Event where
  id : Nat
  adminId : Nat
  title : String
  registrationEnd : Int
  shippingDeadline : Int
  status : String
  deriving Repr, DecidableEq

structure SantaPair where
  eventId : Nat
  santaId : Nat
  receiverId : Nat
  deriving Repr, DecidableEq

/-- The committed state of the database. -/
structure DB where
  events : List Event
  participants : List Participant
  pairs : List SantaPair
  deriving Repr, DecidableEq

/-- Embeds `db.query(Participant).filter(Participant.event_id == event_id).all()`
(also the `event.participants` relationship). -/
def eventParticipants (db : DB) (eventId : Nat) : List Participant :=
  db.participants.filter (fun p => p.eventId == eventId)

/-- Embeds `db.query(SantaPair).filter(SantaPair.event_id == event_id)`;
its length is the `.count()` of `generate_pairs`. -/
def eventPairs (db : DB) (eventId : Nat) : List SantaPair :=
  db.pairs.filter (fun pr => pr.eventId == eventId)

/-- Embeds `db.query(Event).get(event_id)` (primary-key lookup). -/
def findEvent (db : DB) (eventId : Nat) : Option Event :=
  db.events.find? (fun e => e.id == eventId)

/-- Embeds `event.status = s; db.commit()` — a no-op when the event is
absent, exactly as in `generate_pairs` (`if event:`). -/
def setEventStatus (db : DB) (eventId : Nat) (status : String) : DB :=
  { db with
    events := db.events.map (fun e =>
      if e.id == eventId then { e with status := status } else e) }

/-- Embeds `database/crud.py` `create_santa_pair`: it adds the row and then
calls `db.commit()` itself, so the new row is durable as soon as the helper
returns — even if a later iteration of the caller's loop fails. -/
def create_santa_pair (db : DB) (eventId santaId receiverId : Nat) : DB :=
  { db with pairs := db.pairs ++ [⟨eventId, santaId, receiverId⟩] }

/-- The distinct outcomes of `generate_pairs` (`services/pairing.py`): the
three `return False` messages and the success message. -/
inductive PairingResult where
  | insufficientParticipants
  | alreadyPaired
  | persistFailed
  | success
  deriving Repr, DecidableEq

/-- The `for santa_id, receiver_id in zip(...): create_santa_pair(...)` loop
of `generate_pairs`, with a fault-injection point: `failAt = some k` makes
the `k`-th `create_santa_pair` raise during its own commit (so that call
persists nothing), and the exception aborts the loop; the rows committed by
the earlier iterations stay, because each earlier call already committed.
`failAt = none` means every call succeeds.  Returns the committed state and
whether the loop completed. -/
def persistPairsLoop : DB → Nat → List (Nat × Nat) → Option Nat → DB × Bool
  | db, _, [], _ => (db, true)
  | db, _, _ :: _, some 0 => (db, false)
  | db, eventId, (s, r) :: rest, some (k + 1) =>
      persistPairsLoop (create_santa_pair db eventId s r) eventId rest (some k)
  | db, eventId, (s, r) :: rest, none =>
      persistPairsLoop (create_santa_pair db eventId s r) eventId rest none

/-- Embeds `services/pairing.py` `generate_pairs`: query the event's
participants, reject fewer than 3; reject a nonzero existing-pair count;
otherwise persist the zipped pairs one `create_santa_pair` at a time (each
committing on its own), and on full completion set the event status to
`in_progress`.  On a mid-loop exception the session is rolled back — which
discards nothing durable, since every finished `create_santa_pair` already
committed — and the failure message is returned. -/
def generate_pairs (db : DB) (eventId : Nat) (shuffled : List Nat)
    (failAt : Option Nat) : DB × PairingResult :=
  if (eventParticipants db eventId).length < 3 then
    (db, .insufficientParticipants)
  else if 0 < (eventPairs db eventId).length then
    (db, .alreadyPaired)
  else
    if (persistPairsLoop db eventId (generatePairList shuffled) failAt).2 then
      (setEventStatus
        (persistPairsLoop db eventId (generatePairList shuffled) failAt).1
        eventId "in_progress", .success)
    else
      ((persistPairsLoop db eventId (generatePairList shuffled) failAt).1,
        .persistFailed)

/-- The record returned by `get_recipient_info`. -/
structure RecipientInfo where
  name : String
  username : String
  wishes : String
  address : String
  deliveryMethods : String
  deriving Repr, DecidableEq

/-- Embeds `services/pairing.py` `get_recipient_info`: the first pair of the
event with the given santa, then the receiver row behind its foreign key;
`none` when either is missing.  Python truthiness: an absent *or empty*
optional field is replaced by the fixed placeholder string. -/
def get_recipient_info (db : DB) (participantId eventId : Nat) :
    Option RecipientInfo :=
  match db.pairs.find? (fun pr =>
      pr.eventId == eventId && pr.santaId == participantId) with
  | none => none
  | some pr =>
    match db.participants.find? (fun q => q.id == pr.receiverId) with
    | none => none
    | some receiver =>
      some {
        name := receiver.firstName
        username :=
          match receiver.username with
          | some u => if u.isEmpty then "не указан" else "@" ++ u
          | none => "не указан"
        wishes :=
          match receiver.wishes with
          | some w => if w.isEmpty then "не указаны" else w
          | none => "не указаны"
        address :=
          match receiver.address with
          | some a => if a.isEmpty then "не указан" else a
          | none => "не указан"
        deliveryMethods :=
          match receiver.deliveryMethods with
          | some d => if d.isEmpty then "не указаны" else d
          | none => "не указаны" }

/-- The per-pair body of `send_pairing_notifications`: every iteration is
wrapped in `try/except` — a missing recipient record is skipped via
`continue`, and a delivery failure (modelled by `deliverOk` on the santa id)
is caught, logged and skipped, after which the loop continues with the
remaining pairs.  Returns the santa ids that were successfully messaged. -/
def sendLoop (db : DB) (eventId : Nat) (deliverOk : Nat → Bool) :
    List SantaPair → List Nat
  | [] => []
  | pr :: rest =>
    match get_recipient_info db pr.santaId eventId with
    | none => sendLoop db eventId deliverOk rest
    | some _ =>
      if deliverOk pr.santaId then
        pr.santaId :: sendLoop db eventId deliverOk rest
      else
        sendLoop db eventId deliverOk rest

/-- Embeds `services/pairing.py` `send_pairing_notifications`: reads the
event's pairs and attempts one delivery per pair; it never writes to the
database. -/
def send_pairing_notifications (db : DB) (eventId : Nat)
    (deliverOk : Nat → Bool) : DB × List Nat :=
  (db, sendLoop db eventId deliverOk (eventPairs db eventId))

/-- The distinct outcomes of the `start_pairing` admin handler. -/
inductive HandlerResult where
  | eventNotFound
  | registrationStillOpen
  | insufficientParticipants
  | pairingFailed
  | success
  deriving Repr, DecidableEq

/-- Embeds `handlers/admin.py` `start_pairing`: look up the event (reporting
"event not found" when absent), reject while registration is still open,
reject fewer than 3 participants, then call `generate_pairs`; on success send
the notifications and set the status to `in_progress` once more.  `now` is
the current time in minutes. -/
def start_pairing (db : DB) (eventId : Nat) (now : Int) (shuffled : List Nat)
    (failAt : Option Nat) (deliverOk : Nat → Bool) : DB × HandlerResult :=
  match findEvent db eventId with
  | none => (db, .eventNotFound)
  | some e =>
    if now < e.registrationEnd then
      (db, .registrationStillOpen)
    else if (eventParticipants db eventId).length < 3 then
      (db, .insufficientParticipants)
    else
      match generate_pairs db eventId shuffled failAt with
      | (db1, PairingResult.success) =>
        let db2 := (send_pairing_notifications db1 eventId deliverOk).1
        (setEventStatus db2 eventId "in_progress", .success)
      | (db1, _) => (db1, .pairingFailed)

/-- The filter of `crud.get_events_with_active_registration(db,
time_left=-5min, min_time_left=-10min, status='registration')` as used by
`NotificationService._check_event_status_changes`: the event's registration
ended between 5 and 10 minutes ago, is less than a day old, and the event is
still in `registration` status. -/
def registrationJustEnded (now : Int) (e : Event) : Bool :=
  e.registrationEnd ≤ now - 5 && now - 1440 < e.registrationEnd &&
    now - 10 ≤ e.registrationEnd && e.status == "registration"

/-- The filter of `crud.get_events_with_upcoming_deadline(db, time_left=-5min,
min_time_left=-10min, status='in_progress')` in the same method. -/
def shippingJustEnded (now : Int) (e : Event) : Bool :=
  e.shippingDeadline ≤ now - 5 && now - 1440 < e.shippingDeadline &&
    now - 10 ≤ e.shippingDeadline && e.status == "in_progress"

/-- Embeds `services/notifications.py`
`NotificationService._check_event_status_changes`: the first loop flips every
`registration` event whose registration window just ended to `in_progress`
(committing each), then the second loop flips every `in_progress` event whose
shipping deadline just passed to `completed`. -/
def check_event_status_changes (db : DB) (now : Int) : DB :=
  { db with
    events := (db.events.map (fun e =>
        if registrationJustEnded now e then { e with status := "in_progress" }
        else e)).map (fun e =>
        if shippingJustEnded now e then { e with status := "completed" }
        else e) }

/-! ## Concrete states used by witnesses and counterexamples -/

/-- A participant with all optional fields absent. -/
def mkParticipant (id eventId telegramId : Nat) (firstName : String) :
    Participant :=
  { id := id, eventId := eventId, telegramId := telegramId, username := none,
    firstName := firstName, lastName := none, wishes := none, address := none,
    deliveryMethods := none }

def mkEvent (id : Nat) (regEnd shipDl : Int) (status : String) : Event :=
  { id := id, adminId := 0, title := "e", registrationEnd := regEnd,
    shippingDeadline := shipDl, status := status }

def dbEmpty : DB := { events := [], participants := [], pairs := [] }

def threeParticipants : List Participant :=
  [mkParticipant 1 1 11 "a", mkParticipant 2 1 12 "b", mkParticipant 3 1 13 "c"]

/-- An event in registration with two participants. -/
def dbTwo : DB :=
  { events := [mkEvent 1 (-100) 1000 "registration"],
    participants := [mkParticipant 1 1 11 "a", mkParticipant 2 1 12 "b"],
    pairs := [] }

/-- An event in registration with three participants and no pairs. -/
def dbThree : DB :=
  { events := [mkEvent 1 (-100) 1000 "registration"],
    participants := threeParticipants,
    pairs := [] }

/-- `dbThree` after the successful pairing run with shuffle outcome `[1, 2, 3]`. -/
def dbThreePaired : DB :=
  { events := [mkEvent 1 (-100) 1000 "in_progress"],
    participants := threeParticipants,
    pairs := [⟨1, 1, 3⟩, ⟨1, 2, 1⟩, ⟨1, 3, 2⟩] }

/-! ## Claim theorems over the stateful model -/

/-- C5 (minimum threshold): running pairing on an event with fewer than 3
participants returns the insufficient-participants failure and returns the
input state unchanged — no pair is persisted and no event status changes,
because the check happens before any write. -/
theorem C5_minimum_threshold (db : DB) (eventId : Nat) (shuffled : List Nat)
    (failAt : Option Nat) (h : (eventParticipants db eventId).length < 3) :
    generate_pairs db eventId shuffled failAt =
      (db, PairingResult.insufficientParticipants) := by
  unfold generate_pairs
  rw [if_pos h]

theorem C5_minimum_threshold_witness :
    (eventParticipants dbTwo 1).length < 3 ∧
    generate_pairs dbTwo 1 [1, 2] none =
      (dbTwo, PairingResult.insufficientParticipants) :=
  ⟨by decide, C5_minimum_threshold dbTwo 1 [1, 2] none (by decide)⟩

/-- C6 (event not found): when the event id does not resolve, the pairing
operation (the `start_pairing` handler, which guards `generate_pairs`) fails
with the event-not-found outcome — not with any other failure kind — and
returns the input state unchanged, persisting nothing. -/
theorem C6_event_not_found (db : DB) (eventId : Nat) (now : Int)
    (shuffled : List Nat) (failAt : Option Nat) (deliverOk : Nat → Bool)
    (h : findEvent db eventId = none) :
    start_pairing db eventId now shuffled failAt deliverOk =
      (db, HandlerResult.eventNotFound) := by
  unfold start_pairing
  rw [h]

theorem C6_event_not_found_witness :
    findEvent dbEmpty 7 = none ∧
    start_pairing dbEmpty 7 0 [] none (fun _ => true) =
      (dbEmpty, HandlerResult.eventNotFound) :=
  ⟨rfl, C6_event_not_found dbEmpty 7 0 [] none (fun _ => true) rfl⟩

/-- C1 (atomicity, violated by the code): with the fault injected at the
second `create_santa_pair` call, `generate_pairs` on a fresh 3-participant
event reports the persistence failure and leaves the event's status at
`registration` — but one `SantaPair` row remains committed for the event,
because `create_santa_pair` commits each row as it goes, so the claimed
"zero pair records afterwards" does not hold. -/
theorem C1_partial_pair_set_persists :
    (generate_pairs dbThree 1 [1, 2, 3] (some 1)).2 =
      PairingResult.persistFailed ∧
    ((generate_pairs dbThree 1 [1, 2, 3] (some 1)).1.events.map Event.status) =
      ["registration"] ∧
    (eventPairs (generate_pairs dbThree 1 [1, 2, 3] (some 1)).1 1).length = 1 ∧
    (generate_pairs dbThree 1 [1, 2, 3] (some 1)).1.pairs = [⟨1, 1, 3⟩] := by
  refine ⟨rfl, rfl, rfl, rfl⟩

lemma persistPairsLoop_true (eventId : Nat) (ps : List (Nat × Nat)) :
    ∀ (db : DB) (failAt : Option Nat),
      (persistPairsLoop db eventId ps failAt).2 = true →
      (persistPairsLoop db eventId ps failAt).1 =
        { db with
          pairs := db.pairs ++ ps.map (fun q => ⟨eventId, q.1, q.2⟩) } := by
  induction ps with
  | nil =>
    intro db fa _h
    simp [persistPairsLoop]
  | cons q rest ih =>
    intro db fa h
    obtain ⟨s, r⟩ := q
    match fa with
    | some 0 => simp [persistPairsLoop] at h
    | some (k + 1) =>
      rw [persistPairsLoop] at h ⊢
      rw [ih _ _ h]
      simp [create_santa_pair]
    | none =>
      rw [persistPairsLoop] at h ⊢
      rw [ih _ _ h]
      simp [create_santa_pair]

lemma persistPairsLoop_frame (eventId : Nat) (ps : List (Nat × Nat)) :
    ∀ (db : DB) (failAt : Option Nat),
      (persistPairsLoop db eventId ps failAt).1.events = db.events ∧
      (persistPairsLoop db eventId ps failAt).1.participants =
        db.participants := by
  induction ps with
  | nil =>
    intro db fa
    exact ⟨rfl, rfl⟩
  | cons q rest ih =>
    intro db fa
    obtain ⟨s, r⟩ := q
    match fa with
    | some 0 => exact ⟨rfl, rfl⟩
    | some (k + 1) =>
      simp only [persistPairsLoop]
      exact ih (create_santa_pair db eventId s r) (some k)
    | none =>
      simp only [persistPairsLoop]
      exact ih (create_santa_pair db eventId s r) none

/-- C4 (single-shot): if a pairing call for an event succeeds — with the
shuffle outcome a permutation of the event's participant ids, as
`random.shuffle` produces — then any later pairing call on the resulting
state, with any shuffle outcome and any fault injection, fails with the
already-paired rejection and returns that state unchanged: the stored pair
set keeps the same cardinality and the same edges, nothing is regenerated or
appended. -/
theorem C4_single_shot (db db' : DB) (eventId : Nat) (shuffled : List Nat)
    (failAt : Option Nat)
    (hsh : shuffled.Perm ((eventParticipants db eventId).map Participant.id))
    (h : generate_pairs db eventId shuffled failAt =
      (db', PairingResult.success)) :
    ∀ shuffled' failAt',
      generate_pairs db' eventId shuffled' failAt' =
        (db', PairingResult.alreadyPaired) := by
  intro shuffled' failAt'
  unfold generate_pairs at h
  by_cases h3 : (eventParticipants db eventId).length < 3
  · rw [if_pos h3] at h
    exact PairingResult.noConfusion (congrArg Prod.snd h)
  · rw [if_neg h3] at h
    by_cases hp0 : 0 < (eventPairs db eventId).length
    · rw [if_pos hp0] at h
      exact PairingResult.noConfusion (congrArg Prod.snd h)
    · rw [if_neg hp0] at h
      by_cases hok :
          (persistPairsLoop db eventId (generatePairList shuffled) failAt).2 = true
      · rw [if_pos hok] at h
        have hdb' : db' = setEventStatus
            (persistPairsLoop db eventId (generatePairList shuffled) failAt).1
            eventId "in_progress" := (congrArg Prod.fst h).symm
        have hloop := persistPairsLoop_true eventId (generatePairList shuffled)
          db failAt hok
        have hpart : eventParticipants db' eventId =
            eventParticipants db eventId := by
          rw [hdb', hloop]
          rfl
        have hfil : db.pairs.filter (fun pr => pr.eventId == eventId) = [] := by
          have h0 : (eventPairs db eventId).length = 0 := by omega
          exact List.length_eq_zero.mp h0
        have hpairs' : eventPairs db' eventId =
            (generatePairList shuffled).map
              (fun q => (⟨eventId, q.1, q.2⟩ : SantaPair)) := by
          rw [show eventPairs db' eventId =
              (db.pairs ++ (generatePairList shuffled).map
                (fun q => (⟨eventId, q.1, q.2⟩ : SantaPair))).filter
                  (fun pr => pr.eventId == eventId) from by rw [hdb', hloop]; rfl]
          rw [List.filter_append, hfil, List.nil_append]
          refine List.filter_eq_self.mpr ?_
          intro a ha
          obtain ⟨q, _hq, rfl⟩ := List.mem_map.mp ha
          simp
        have hlen' : 0 < (eventPairs db' eventId).length := by
          rw [hpairs', List.length_map]
          unfold generatePairList
          rw [List.length_zip, length_computeReceivers]
          have hshl := hsh.length_eq
          rw [List.length_map] at hshl
          omega
        unfold generate_pairs
        rw [if_neg (by rw [hpart]; exact h3), if_pos hlen']
      · rw [if_neg hok] at h
        exact PairingResult.noConfusion (congrArg Prod.snd h)

theorem C4_single_shot_witness :
    generate_pairs dbThree 1 [1, 2, 3] none =
      (dbThreePaired, PairingResult.success) ∧
    generate_pairs dbThreePaired 1 [2, 3, 1] none =
      (dbThreePaired, PairingResult.alreadyPaired) :=
  ⟨by decide,
    C4_single_shot dbThree dbThreePaired 1 [1, 2, 3] none
      (List.Perm.refl _) (by decide) [2, 3, 1] none⟩

/-- An event still in `registration` status whose registration window ended
7 minutes before `now = 0`, with three participants and no pairs. -/
def dbC8 : DB :=
  { events := [mkEvent 1 (-7) 1000 "registration"],
    participants := threeParticipants,
    pairs := [] }

/-- `dbC8` after one run of the notification service's status check. -/
def dbC8Started : DB :=
  { events := [mkEvent 1 (-7) 1000 "in_progress"],
    participants := threeParticipants,
    pairs := [] }

/-- C8 counterexample: the notification service's periodic status check —
not pairing — moves event 1 of `dbC8` from `registration` to `in_progress`
although zero pairs exist for it, so successful pairing is not the single
transition performing that move; and on the resulting state, whose status is
already `in_progress`, `generate_pairs` still runs to success, so pairing is
not gated on the status being `registration` either (only on the pair count
being zero). -/
theorem C8_counterexample :
    check_event_status_changes dbC8 0 = dbC8Started ∧
    (dbC8.events.map Event.status = ["registration"] ∧
      (eventPairs dbC8 1).length = 0) ∧
    (dbC8Started.events.map Event.status = ["in_progress"] ∧
      (eventPairs dbC8Started 1).length = 0) ∧
    (generate_pairs dbC8Started 1 [1, 2, 3] none).2 = PairingResult.success := by
  refine ⟨rfl, ⟨rfl, rfl⟩, ⟨rfl, rfl⟩, rfl⟩

/-- C8 amended: pairing executes only when the event has no stored pairs (a
successful `generate_pairs` run implies the prior pair count was zero) and a
successful run leaves the event's status at `in_progress`; but that status
transition is not unique to pairing — the notification service's periodic
check also moves any `registration` event whose registration window ended
5–10 minutes ago to `in_progress`, independently of pairing. -/
theorem C8_status_transitions :
    (∀ (db : DB) (eventId : Nat) (shuffled : List Nat) (failAt : Option Nat)
        (db' : DB),
        generate_pairs db eventId shuffled failAt =
            (db', PairingResult.success) →
          (eventPairs db eventId).length = 0 ∧
          ∀ e ∈ db'.events, e.id = eventId → e.status = "in_progress") ∧
    (∀ (db : DB) (now : Int) (e : Event), e ∈ db.events →
        registrationJustEnded now e = true →
        shippingJustEnded now { e with status := "in_progress" } = false →
          { e with status := "in_progress" } ∈
            (check_event_status_changes db now).events) := by
  constructor
  · intro db eventId shuffled failAt db' h
    unfold generate_pairs at h
    by_cases h3 : (eventParticipants db eventId).length < 3
    · rw [if_pos h3] at h
      exact PairingResult.noConfusion (congrArg Prod.snd h)
    · rw [if_neg h3] at h
      by_cases hp0 : 0 < (eventPairs db eventId).length
      · rw [if_pos hp0] at h
        exact PairingResult.noConfusion (congrArg Prod.snd h)
      · rw [if_neg hp0] at h
        refine ⟨by omega, ?_⟩
        by_cases hok :
            (persistPairsLoop db eventId (generatePairList shuffled) failAt).2
              = true
        · rw [if_pos hok] at h
          have hdb' : db' = setEventStatus
              (persistPairsLoop db eventId (generatePairList shuffled) failAt).1
              eventId "in_progress" := (congrArg Prod.fst h).symm
          intro e he hid
          rw [hdb'] at he
          unfold setEventStatus at he
          obtain ⟨e0, _he0, heq⟩ := List.mem_map.mp he
          by_cases hc : (e0.id == eventId) = true
          · rw [if_pos hc] at heq
            rw [← heq]
          · rw [if_neg hc] at heq
            rw [← heq] at hid
            exact absurd (beq_iff_eq.mpr hid) hc
        · rw [if_neg hok] at h
          exact PairingResult.noConfusion (congrArg Prod.snd h)
  · intro db now e he hreg hship
    unfold check_event_status_changes
    refine List.mem_map.mpr ⟨{ e with status := "in_progress" }, ?_, ?_⟩
    · exact List.mem_map.mpr ⟨e, he, if_pos hreg⟩
    · exact if_neg (by simp [hship])

theorem C8_status_transitions_witness :
    (eventPairs dbThree 1).length = 0 ∧
    ∀ e ∈ dbThreePaired.events, e.id = 1 → e.status = "in_progress" :=
  C8_status_transitions.1 dbThree 1 [1, 2, 3] none dbThreePaired (by decide)

/-- C9 (notification-failure isolation): running the post-pairing
notification pass over an event returns the database unchanged — a delivery
failure never rolls back or modifies the committed pairing — and the set of
santas actually messaged is exactly the pairs whose own recipient record
exists and whose own delivery succeeds: a failure for one participant is
skipped and has no effect on whether any other participant is notified. -/
theorem C9_notification_isolation (db : DB) (eventId : Nat)
    (deliverOk : Nat → Bool) :
    send_pairing_notifications db eventId deliverOk =
      (db, ((eventPairs db eventId).filter (fun pr =>
          (get_recipient_info db pr.santaId eventId).isSome &&
            deliverOk pr.santaId)).map (fun pr => pr.santaId)) := by
  unfold send_pairing_notifications
  suffices hloop : ∀ ps : List SantaPair,
      sendLoop db eventId deliverOk ps =
        (ps.filter (fun pr =>
          (get_recipient_info db pr.santaId eventId).isSome &&
            deliverOk pr.santaId)).map (fun pr => pr.santaId) by
    rw [hloop]
  intro ps
  induction ps with
  | nil => rfl
  | cons pr rest ih =>
    rw [sendLoop, List.filter_cons]
    cases hinfo : get_recipient_info db pr.santaId eventId with
    | none => simp [hinfo, ih]
    | some v =>
      by_cases hd : deliverOk pr.santaId = true
      · simp [hinfo, hd, ih]
      · simp [hinfo, hd, ih]

/-- C10 (recipient lookup): `get_recipient_info` returns `none` whenever the
event has no pairs at all (in particular, before pairing has run, for every
participant), whenever no pair of the event has the given participant as
santa, and whenever the first such pair's receiver row is missing; when the
lookup succeeds, the returned record carries the receiver's name and has the
fixed placeholder strings substituted for each absent optional field, and the
`@`-prefixed username for a present nonempty username. -/
theorem C10_recipient_info (db : DB) (participantId eventId : Nat) :
    (eventPairs db eventId = [] →
      get_recipient_info db participantId eventId = none) ∧
    ((∀ pr ∈ db.pairs, ¬(pr.eventId = eventId ∧ pr.santaId = participantId)) →
      get_recipient_info db participantId eventId = none) ∧
    (∀ pr, db.pairs.find? (fun q =>
        q.eventId == eventId && q.santaId == participantId) = some pr →
      db.participants.find? (fun q => q.id == pr.receiverId) = none →
      get_recipient_info db participantId eventId = none) ∧
    (∀ info, get_recipient_info db participantId eventId = some info →
      ∃ pr, db.pairs.find? (fun q =>
          q.eventId == eventId && q.santaId == participantId) = some pr ∧
        ∃ rcv, db.participants.find? (fun q => q.id == pr.receiverId) =
            some rcv ∧
          info.name = rcv.firstName ∧
          (rcv.username = none → info.username = "не указан") ∧
          (∀ u, rcv.username = some u → ¬u.isEmpty = true →
            info.username = "@" ++ u) ∧
          (rcv.wishes = none → info.wishes = "не указаны") ∧
          (rcv.address = none → info.address = "не указан") ∧
          (rcv.deliveryMethods = none → info.deliveryMethods = "не указаны")) := by
  refine ⟨?_, ?_, ?_, ?_⟩
  · intro h0
    have hf : db.pairs.find? (fun q =>
        q.eventId == eventId && q.santaId == participantId) = none := by
      rw [List.find?_eq_none]
      intro x hx hpx
      rw [Bool.and_eq_true] at hpx
      have hmem : x ∈ eventPairs db eventId :=
        List.mem_filter.mpr ⟨hx, hpx.1⟩
      rw [h0] at hmem
      exact absurd hmem (List.not_mem_nil x)
    unfold get_recipient_info
    rw [hf]
  · intro hno
    have hf : db.pairs.find? (fun q =>
        q.eventId == eventId && q.santaId == participantId) = none := by
      rw [List.find?_eq_none]
      intro x hx hpx
      rw [Bool.and_eq_true, beq_iff_eq, beq_iff_eq] at hpx
      exact hno x hx hpx
    unfold get_recipient_info
    rw [hf]
  · intro pr hfp hfr
    unfold get_recipient_info
    simp only [hfp, hfr]
  · intro info h
    unfold get_recipient_info at h
    cases hfp : db.pairs.find? (fun q =>
        q.eventId == eventId && q.santaId == participantId) with
    | none =>
      simp only [hfp] at h
      exact Option.noConfusion h
    | some pr =>
      simp only [hfp] at h
      cases hfr : db.participants.find? (fun q => q.id == pr.receiverId) with
      | none =>
        simp only [hfr] at h
        exact Option.noConfusion h
      | some rcv =>
        simp only [hfr] at h
        refine ⟨pr, rfl, rcv, hfr, ?_⟩
        have hinfo := Option.some.inj h
        refine ⟨?_, ?_, ?_, ?_, ?_, ?_⟩
        · rw [← hinfo]
        · intro hu
          rw [← hinfo]
          simp [hu]
        · intro u hu hne
          rw [← hinfo]
          simp [hu, hne]
        · intro hw
          rw [← hinfo]
          simp [hw]
        · intro ha
          rw [← hinfo]
          simp [ha]
        · intro hd
          rw [← hinfo]
          simp [hd]

theorem C10_recipient_info_witness :
    get_recipient_info dbEmpty 1 1 = none ∧
    get_recipient_info dbThreePaired 3 1 =
      some ⟨"b", "не указан", "не указаны", "не указан", "не указаны"⟩ :=
  ⟨(C10_recipient_info dbEmpty 1 1).1 rfl, by decide⟩

end SantaBot
